import Mathlib

/-!
Shallow embedding of `custom_components/onlycat/api.py` (the OnlyCat
Home Assistant API client) and proofs about its specification.

The module is a thin client over an external socket.io transport.  We embed:

* the error classes defined at the top of the module,
* the listener registry (`self._listeners`, a `defaultdict(list)`),
* `add_event_listener`, `handle_event`, `connect`, `disconnect`,
  `send_message` and the built-in `on_connected` handler.

The external transport library (`socketio.AsyncClient`) is modelled through
the collaborator contract the spec describes for the Transport Adapter:
a connected-state query, a handshake attempt that raises the library's own
connection error on failure, a best-effort disconnect/shutdown pair, and a
correlated call primitive that raises when the namespace is not connected.
-/

namespace OnlyCat

/-- Opaque payload values exchanged with the gateway (JSON-like, as the
spec leaves payload shape unconstrained). -/
inductive Value where
  | null : Value
  | str (s : String) : Value
  | num (n : Int) : Value
  | obj (fields : List (String × Value)) : Value
  | arr (items : List Value) : Value
deriving Repr

/-- A registered handler callable.  Running it on the event's positional
arguments either returns normally or raises (modelled as `Except` with the
exception message). -/
structure Handler where
  run : List Value → Except String Unit

/-- The listener registry `self._listeners`: a `defaultdict(list)` mapping
event name to the ordered list of registered handlers, embedded as an
insertion-ordered association list (Python dicts preserve insertion
order). -/
abbrev Listeners := List (String × List Handler)

/-- Dictionary lookup (no default): the value stored under key `e`, if any. -/
def lookupL : Listeners → String → Option (List Handler)
  | [], _ => none
  | (k, v) :: rest, e => if k = e then some v else lookupL rest e

/-- Replace the value under an existing key, or insert the pair at the end
(Python dict assignment semantics). -/
def setItem : Listeners → String → List Handler → Listeners
  | [], e, v => [(e, v)]
  | (k, w) :: rest, e, v =>
      if k = e then (k, v) :: rest else (k, w) :: setItem rest e v

/-- `defaultdict(list).__getitem__`: returns the stored list, or — when the
key is absent — inserts the key with a fresh empty list and returns that
empty list.  The possibly-extended dictionary is returned alongside. -/
def getItem (l : Listeners) (e : String) : List Handler × Listeners :=
  match lookupL l e with
  | some hs => (hs, l)
  | none => ([], l ++ [(e, [])])

/-- `add_event_listener` (api.py lines 83-86):
`self._listeners[event].append(callback)` — defaultdict access followed by
an in-place append. -/
def add_event_listener (l : Listeners) (event : String) (callback : Handler) :
    Listeners :=
  let (hs, l1) := getItem l event
  setItem l1 event (hs ++ [callback])

/-- Record of one handler invocation performed by `handle_event`: the
callback that was called, the positional arguments it received, and whether
it raised (its exception being caught and logged). -/
structure Invocation where
  callback : Handler
  args : List Value
  raised : Bool

/-- Whether running handler `h` on `args` raises. -/
def raises (h : Handler) (args : List Value) : Bool :=
  match h.run args with
  | .ok _ => false
  | .error _ => true

/-- One iteration of the dispatch loop body (api.py lines 92-97):
`try: await callback(*args) except Exception: _LOGGER.exception(...)`.
A raising callback is caught and logged, so the iteration itself never
produces an exception; an uncaught exception would appear as `.error`. -/
def dispatchStep (h : Handler) (args : List Value) : Except String Invocation :=
  match h.run args with
  | .ok _ => .ok { callback := h, args := args, raised := false }
  | .error _ => .ok { callback := h, args := args, raised := true }

/-- The `for callback in self._listeners[event]` loop of `handle_event`,
returning the list of invocations performed.  Sequenced in the exception
monad: an exception escaping an iteration would abort the loop. -/
def dispatchLoop : List Handler → List Value → Except String (List Invocation)
  | [], _ => .ok []
  | h :: rest, args => do
      let i ← dispatchStep h args
      let is ← dispatchLoop rest args
      pure (i :: is)

/-- `handle_event` (api.py lines 88-97): looks the event up in the
`defaultdict` registry (which may silently create the key) and runs every
registered callback in order, each in its own try/except.  Returns the
invocation trace and the (possibly extended) registry. -/
def handle_event (l : Listeners) (event : String) (args : List Value) :
    Except String (List Invocation × Listeners) := do
  let (hs, l1) := getItem l event
  let trace ← dispatchLoop hs args
  pure (trace, l1)

/-- `on_connected` (api.py lines 108-110): the built-in bootstrap handler.
It takes no positional parameters (calling it with arguments would be a
`TypeError`) and merely logs. -/
def on_connected : Handler :=
  ⟨fun args => match args with
    | [] => .ok ()
    | _ :: _ => .error "TypeError"⟩

/-- The listener registry immediately after `__init__` (api.py lines 51
and 61): the `defaultdict` starts empty and the constructor registers the
built-in `on_connected` handler for the "connect" event. -/
def initListeners : Listeners :=
  add_event_listener [] "connect" on_connected

/-- A sequence of subsequent `add_event_listener` calls, in order. -/
def registerAll (l : Listeners) (regs : List (String × Handler)) : Listeners :=
  regs.foldl (fun acc r => add_event_listener acc r.1 r.2) l

/-! ### Connection manager and call gateway -/

/-- The error classes the module defines (api.py lines 21-34).  They are
declared but no statement of the module ever raises one of them. -/
inductive ApiError where
  | clientError (msg : String) : ApiError            -- OnlyCatApiClientError
  | communicationError (msg : String) : ApiError     -- OnlyCatApiClientCommunicationError
  | authenticationError (msg : String) : ApiError    -- OnlyCatApiClientAuthenticationError
deriving Repr, DecidableEq

/-- Exceptions raised by the external transport library (socketio), a
different class hierarchy from the module's own `ApiError` classes. -/
inductive TransportError where
  /-- socketio.exceptions.ConnectionError: any failed connection attempt,
  whether the network handshake broke or the gateway refused the
  connection. -/
  | connectionError (msg : String) : TransportError
  /-- socketio.exceptions.BadNamespaceError: emitted/called on a namespace
  that is not connected. -/
  | badNamespace (msg : String) : TransportError
deriving Repr, DecidableEq

/-- Any Python exception that can surface to a caller of the client:
either one of the module's own error classes or a transport-library
exception. -/
inductive PyError where
  | api (e : ApiError) : PyError
  | transport (e : TransportError) : PyError
deriving Repr, DecidableEq

/-- Is this exception an instance of `OnlyCatApiClientCommunicationError`? -/
def PyError.isCommunicationErrorClass : PyError → Bool
  | .api (.communicationError _) => true
  | _ => false

/-- Is this exception an instance of `OnlyCatApiClientAuthenticationError`? -/
def PyError.isAuthenticationErrorClass : PyError → Bool
  | .api (.authenticationError _) => true
  | _ => false

/-- Classification of a surfaced error under the spec's taxonomy:
transport/network failures (all transport-library errors) and the
communication-error class count as communication failures; the
authentication class does not. -/
def PyError.communicationKind : PyError → Bool
  | .transport _ => true
  | .api (.communicationError _) => true
  | .api _ => false

/-- Outcome of a transport-level handshake attempt, as decided by the
network and the gateway (environment input to the model). -/
inductive HandshakeResult where
  | success : HandshakeResult
  /-- the handshake fails at transport level (network/websocket failure) -/
  | transportFailure (msg : String) : HandshakeResult
  /-- the gateway rejects the supplied token -/
  | authRejected (msg : String) : HandshakeResult
deriving Repr, DecidableEq

/-- Observable state of the `socketio.AsyncClient` transport instance:
its connected flag (`self._socket.connected`), whether `shutdown()` has
been performed, and how many handshake attempts it has made. -/
structure Socket where
  connected : Bool
  shutdownDone : Bool
  attempts : Nat
deriving Repr, DecidableEq

/-- Transport operation `AsyncClient.connect`, modelled per the
collaborator contract: performs one handshake attempt; on success the
client becomes connected; on any failure — transport-level or gateway
rejection of the credentials — it raises the library's single
`ConnectionError` class. -/
def Socket.connectOp (s : Socket) (o : HandshakeResult) :
    Except PyError Unit × Socket :=
  let s1 := { s with attempts := s.attempts + 1 }
  match o with
  | .success => (.ok (), { s1 with connected := true })
  | .transportFailure m => (.error (.transport (.connectionError m)), s1)
  | .authRejected m => (.error (.transport (.connectionError m)), s1)

/-- Transport operation `AsyncClient.disconnect`, modelled per the
collaborator contract: graceful close, a no-op that does not raise when
the connection is already closed. -/
def Socket.disconnectOp (s : Socket) : Except PyError Unit × Socket :=
  (.ok (), { s with connected := false })

/-- Transport operation `AsyncClient.shutdown`, modelled per the
collaborator contract: tears the transport instance down, releasing its
resources; does not raise. -/
def Socket.shutdownOp (s : Socket) : Except PyError Unit × Socket :=
  (.ok (), { s with shutdownDone := true })

/-- Transport operation `AsyncClient.call`, modelled per the collaborator
contract: when connected, awaits and returns the correlated reply the
remote produces for this request (`reply` is that environment input,
`none` when the remote sends no payload); when not connected, raises the
library's `BadNamespaceError`. -/
def Socket.callOp (s : Socket) (event : String) (payload : Value)
    (reply : Option Value) : Except PyError (Option Value) :=
  if s.connected then .ok reply
  else .error (.transport (.badNamespace "/ is not a connected namespace"))

/-- `connect` (api.py lines 63-75): if the transport already reports
connected, return immediately; otherwise await the transport's connect.
The body contains no try/except and no raise: whatever the transport
raises propagates unchanged to the caller. -/
def connect (s : Socket) (o : HandshakeResult) : Except PyError Unit × Socket :=
  if s.connected then (.ok (), s)
  else s.connectOp o

/-- The two transport teardown steps `disconnect` performs, for tracing. -/
inductive Step where
  | socketDisconnect : Step
  | socketShutdown : Step
deriving Repr, DecidableEq

/-- `disconnect` (api.py lines 77-81): awaits the transport's disconnect,
then its shutdown, with no exception handling of its own; the trace
records which transport steps were attempted before any exception. -/
def disconnect (s : Socket) : Except PyError Unit × Socket × List Step :=
  match s.disconnectOp with
  | (.error e, s1) => (.error e, s1, [.socketDisconnect])
  | (.ok _, s1) =>
      match s1.shutdownOp with
      | (.error e, s2) => (.error e, s2, [.socketDisconnect, .socketShutdown])
      | (.ok _, s2) => (.ok (), s2, [.socketDisconnect, .socketShutdown])

/-- `send_message` (api.py lines 99-102): returns
`await self._socket.call(event, data)` directly — the transport's reply,
or the transport's exception, with no handling in between. -/
def send_message (s : Socket) (event : String) (data : Value)
    (reply : Option Value) : Except PyError (Option Value) :=
  s.callOp event data reply

/-! ### Helper lemmas on dispatch and the registry -/

/-- The invocation record produced for one callback. -/
def invocationOf (h : Handler) (args : List Value) : Invocation :=
  { callback := h, args := args, raised := raises h args }

theorem dispatchStep_eq (h : Handler) (args : List Value) :
    dispatchStep h args = .ok (invocationOf h args) := by
  unfold dispatchStep invocationOf raises
  cases h.run args <;> rfl

/-- The dispatch loop never lets an exception escape and invokes every
handler, in order, with the given arguments. -/
theorem dispatchLoop_eq_map (hs : List Handler) (args : List Value) :
    dispatchLoop hs args = .ok (hs.map (invocationOf · args)) := by
  induction hs with
  | nil => rfl
  | cons h rest ih =>
      unfold dispatchLoop
      rw [dispatchStep_eq, ih]
      rfl

theorem lookupL_setItem_self (l : Listeners) (e : String) (v : List Handler) :
    lookupL (setItem l e v) e = some v := by
  induction l with
  | nil => simp [setItem, lookupL]
  | cons p rest ih =>
      by_cases hk : p.1 = e
      · simp [setItem, lookupL, hk]
      · simp [setItem, lookupL, hk, ih]

theorem lookupL_setItem_other (l : Listeners) (e e' : String) (v : List Handler)
    (hne : e' ≠ e) : lookupL (setItem l e v) e' = lookupL l e' := by
  induction l with
  | nil => simp [setItem, lookupL, Ne.symm hne]
  | cons p rest ih =>
      by_cases hk : p.1 = e
      · simp [setItem, lookupL, hk, Ne.symm hne]
      · by_cases hk' : p.1 = e'
        · simp [setItem, lookupL, hk, hk', hne]
        · simp [setItem, lookupL, hk, hk', ih]

theorem lookupL_append_single_other (l : Listeners) (e e' : String)
    (v : List Handler) (hne : e' ≠ e) :
    lookupL (l ++ [(e, v)]) e' = lookupL l e' := by
  induction l with
  | nil => simp [lookupL, Ne.symm hne]
  | cons p rest ih =>
      by_cases hk : p.1 = e'
      · simp [lookupL, hk]
      · simp [lookupL, hk, ih]

/-- After `add_event_listener l e h`, key `e` maps to its previous list
(empty when the key was absent) with `h` appended. -/
theorem lookupL_add_self (l : Listeners) (e : String) (h : Handler) :
    lookupL (add_event_listener l e h) e = some ((getItem l e).1 ++ [h]) := by
  unfold add_event_listener getItem
  cases hl : lookupL l e with
  | some hs => simp [lookupL_setItem_self]
  | none => simp [lookupL_setItem_self]

/-- `add_event_listener` for one event leaves every other event's entry
unchanged. -/
theorem lookupL_add_other (l : Listeners) (e e' : String) (h : Handler)
    (hne : e' ≠ e) :
    lookupL (add_event_listener l e h) e' = lookupL l e' := by
  unfold add_event_listener getItem
  cases hl : lookupL l e with
  | some hs => simp [lookupL_setItem_other _ _ _ _ hne]
  | none =>
      simp [lookupL_setItem_other _ _ _ _ hne,
        lookupL_append_single_other _ _ _ _ hne]

/-- Registrations only ever append: after any sequence of further
`add_event_listener` calls, the entry for `e` is its previous list followed
by exactly the handlers registered for `e`, in registration order. -/
theorem lookupL_registerAll (regs : List (String × Handler)) :
    ∀ (l : Listeners) (e : String) (hs : List Handler),
      lookupL l e = some hs →
      lookupL (registerAll l regs) e =
        some (hs ++ (regs.filter (fun r => r.1 == e)).map (·.2)) := by
  induction regs with
  | nil => intro l e hs hl; simpa [registerAll] using hl
  | cons r rest ih =>
      intro l e hs hl
      by_cases he : r.1 = e
      · have h1 : lookupL (add_event_listener l r.1 r.2) e =
            some (hs ++ [r.2]) := by
          rw [he, lookupL_add_self]
          unfold getItem
          rw [hl]
        have hrec := ih (add_event_listener l r.1 r.2) e (hs ++ [r.2]) h1
        simpa [registerAll, List.filter_cons, he] using hrec
      · have h1 : lookupL (add_event_listener l r.1 r.2) e = some hs := by
          rw [lookupL_add_other _ _ _ _ (fun hc => he hc.symm)]
          exact hl
        have hrec := ih (add_event_listener l r.1 r.2) e hs h1
        simpa [registerAll, List.filter_cons, he] using hrec

/-- `handle_event` on an event whose key is present: all handlers run, in
order, with the arguments passed through, and the registry is unchanged. -/
theorem handle_event_eq_of_lookup (l : Listeners) (e : String)
    (args : List Value) (hs : List Handler) (hl : lookupL l e = some hs) :
    handle_event l e args = .ok (hs.map (invocationOf · args), l) := by
  unfold handle_event getItem
  rw [hl]
  simp [dispatchLoop_eq_map]

/-! ### Concrete handlers and registries used as witnesses -/

/-- A handler that completes normally on any arguments. -/
def okHandler : Handler := ⟨fun _ => .ok ()⟩

/-- A handler that raises a synthetic error on any arguments. -/
def raisingHandler : Handler := ⟨fun _ => .error "synthetic error"⟩

/-- Registry with three handlers for "ping" (one registered twice). -/
def pingHandlers : List Handler := [okHandler, raisingHandler, okHandler]

/-- `pingHandlers` installed under the "ping" key. -/
def pingListeners : Listeners := [("ping", pingHandlers)]

/-! ### Claims about the Event Dispatcher -/

/-- Claim C2: with N handlers registered for an event (duplicates counted
with multiplicity), one `handle_event` call invokes each of the N handlers
exactly once, in registration order, passing the positional arguments
through unchanged — and the registry is untouched. -/
theorem handle_event_invokes_all_in_order (l : Listeners) (event : String)
    (args : List Value) (hs : List Handler)
    (hl : lookupL l event = some hs) :
    handle_event l event args = .ok (hs.map (invocationOf · args), l) ∧
    (hs.map (invocationOf · args)).map Invocation.callback = hs ∧
    ∀ i ∈ hs.map (invocationOf · args), i.args = args := by
  refine ⟨handle_event_eq_of_lookup l event args hs hl, ?_, ?_⟩
  · have hcomp : (Invocation.callback ∘ (invocationOf · args)) = id := rfl
    rw [List.map_map, hcomp, List.map_id]
  · intro i hi
    rw [List.mem_map] at hi
    obtain ⟨h, _, rfl⟩ := hi
    rfl

/-- Claim C2 witness: dispatching "ping" to three registered handlers
(one of them registered twice) invokes each exactly once, in order. -/
theorem handle_event_invokes_all_in_order_witness :
    handle_event pingListeners "ping" [Value.str "payload"] =
      .ok (pingHandlers.map (invocationOf · [Value.str "payload"]),
        pingListeners) ∧
    (pingHandlers.map (invocationOf · [Value.str "payload"])).map
      Invocation.callback = pingHandlers ∧
    ∀ i ∈ pingHandlers.map (invocationOf · [Value.str "payload"]),
      i.args = [Value.str "payload"] :=
  handle_event_invokes_all_in_order pingListeners "ping"
    [Value.str "payload"] pingHandlers rfl

/-- Claim C3: if the handler at position k raises, `handle_event` still
invokes every handler — including those at positions after k, with the same
arguments — and returns normally: no handler exception escapes to the
caller. -/
theorem handle_event_isolates_handler_failure (l : Listeners) (event : String)
    (args : List Value) (hs : List Handler) (k : Nat) (hk : Handler)
    (msg : String) (hl : lookupL l event = some hs)
    (hgk : hs[k]? = some hk) (hraise : hk.run args = .error msg) :
    handle_event l event args = .ok (hs.map (invocationOf · args), l) ∧
    ∀ j hj, k < j → hs[j]? = some hj →
      (hs.map (invocationOf · args))[j]? = some (invocationOf hj args) := by
  refine ⟨handle_event_eq_of_lookup l event args hs hl, ?_⟩
  intro j hj _ hgj
  simp [List.getElem?_map, hgj]

/-- Claim C3 witness: with a raising handler at position 0 for "ping", the
handler at position 1 still receives the payload and no error crosses the
`handle_event` boundary. -/
theorem handle_event_isolates_handler_failure_witness :
    handle_event [("ping", [raisingHandler, okHandler])] "ping"
        [Value.str "payload"] =
      .ok ([raisingHandler, okHandler].map (invocationOf · [Value.str "payload"]),
        [("ping", [raisingHandler, okHandler])]) ∧
    ∀ j hj, 0 < j → [raisingHandler, okHandler][j]? = some hj →
      ([raisingHandler, okHandler].map
        (invocationOf · [Value.str "payload"]))[j]? =
        some (invocationOf hj [Value.str "payload"]) :=
  handle_event_isolates_handler_failure
    [("ping", [raisingHandler, okHandler])] "ping" [Value.str "payload"]
    [raisingHandler, okHandler] 0 raisingHandler "synthetic error"
    rfl rfl rfl

/-- Claim C8 counterexample: dispatching an event with no registered
handlers is not free of observable effect on the registry — the
`defaultdict` lookup inserts the event name as a new key (mapped to the
empty list), so the key set changes. -/
theorem handle_event_unregistered_creates_key :
    handle_event ([] : Listeners) "foo" [] = .ok ([], [("foo", [])]) ∧
    ([("foo", [])] : Listeners) ≠ ([] : Listeners) :=
  ⟨rfl, by simp⟩

/-- Claim C8 (amended): for an event name not present in the registry,
`handle_event` completes without error and invokes no handler; every
existing entry is unchanged, but the event name is added as a new key
mapped to the empty handler list. -/
theorem handle_event_unregistered_noop_except_key (l : Listeners)
    (event : String) (args : List Value) (hl : lookupL l event = none) :
    handle_event l event args = .ok ([], l ++ [(event, [])]) := by
  unfold handle_event getItem
  rw [hl]
  simp [dispatchLoop]

/-- Claim C8 (amended) witness: dispatching unregistered "foo" on the
freshly-constructed registry invokes nothing, raises nothing, and only adds
the "foo" key. -/
theorem handle_event_unregistered_noop_except_key_witness :
    handle_event initListeners "foo" [] =
      .ok ([], initListeners ++ [("foo", [])]) :=
  handle_event_unregistered_noop_except_key initListeners "foo" [] rfl

/-- Claim C9: construction registers the built-in `on_connected` handler
for the "connect" event; dispatching "connect" with no arguments invokes
the bootstrap handler and then any user handler H registered for
"connect", each with no arguments, and the bootstrap handler completes
without raising. -/
theorem connect_event_invokes_builtin_and_user (H : Handler) :
    lookupL initListeners "connect" = some [on_connected] ∧
    handle_event (add_event_listener initListeners "connect" H) "connect" [] =
      .ok ([invocationOf on_connected [], invocationOf H []],
        add_event_listener initListeners "connect" H) ∧
    raises on_connected [] = false := by
  refine ⟨rfl, ?_, rfl⟩
  have hl : lookupL (add_event_listener initListeners "connect" H) "connect" =
      some [on_connected, H] := by
    rw [lookupL_add_self]
    rfl
  simpa using handle_event_eq_of_lookup _ "connect" [] [on_connected, H] hl

/-- Claim C9 witness: with `okHandler` registered by the caller for
"connect", dispatching "connect" invokes the bootstrap handler and then
`okHandler`, both with no arguments. -/
theorem connect_event_invokes_builtin_and_user_witness :
    lookupL initListeners "connect" = some [on_connected] ∧
    handle_event (add_event_listener initListeners "connect" okHandler)
        "connect" [] =
      .ok ([invocationOf on_connected [], invocationOf okHandler []],
        add_event_listener initListeners "connect" okHandler) ∧
    raises on_connected [] = false :=
  connect_event_invokes_builtin_and_user okHandler

/-- Claim C10: immediately after construction `on_connected` is the sole
entry for "connect"; after any further sequence of registrations the
"connect" list is `on_connected` followed by exactly the user handlers
registered for "connect" in order, so on every dispatch of "connect" the
built-in bootstrap handler is invoked first. -/
theorem builtin_connect_handler_first (regs : List (String × Handler))
    (args : List Value) :
    lookupL initListeners "connect" = some [on_connected] ∧
    lookupL (registerAll initListeners regs) "connect" =
      some (on_connected ::
        (regs.filter (fun r => r.1 == "connect")).map (·.2)) ∧
    handle_event (registerAll initListeners regs) "connect" args =
      .ok (invocationOf on_connected args ::
        ((regs.filter (fun r => r.1 == "connect")).map (·.2)).map
          (invocationOf · args),
        registerAll initListeners regs) := by
  have hl := lookupL_registerAll regs initListeners "connect" [on_connected] rfl
  refine ⟨rfl, by simpa using hl, ?_⟩
  have hh := handle_event_eq_of_lookup (registerAll initListeners regs)
    "connect" args
    (on_connected :: (regs.filter (fun r => r.1 == "connect")).map (·.2))
    (by simpa using hl)
  simpa using hh

/-- Claim C10 witness: after registering a user "connect" handler and a
"ping" handler, the "connect" entry is the built-in followed by the user
handler, and dispatch invokes the built-in first. -/
theorem builtin_connect_handler_first_witness :
    lookupL initListeners "connect" = some [on_connected] ∧
    lookupL (registerAll initListeners
        [("connect", okHandler), ("ping", raisingHandler)]) "connect" =
      some (on_connected ::
        ([("connect", okHandler), ("ping", raisingHandler)].filter
          (fun r => r.1 == "connect")).map (·.2)) ∧
    handle_event (registerAll initListeners
        [("connect", okHandler), ("ping", raisingHandler)]) "connect" [] =
      .ok (invocationOf on_connected [] ::
        (([("connect", okHandler), ("ping", raisingHandler)].filter
          (fun r => r.1 == "connect")).map (·.2)).map (invocationOf · []),
        registerAll initListeners
          [("connect", okHandler), ("ping", raisingHandler)]) :=
  builtin_connect_handler_first
    [("connect", okHandler), ("ping", raisingHandler)] []

/-! ### Claims about the Connection Manager and Call Gateway -/

/-- Claim C1 counterexample: a transport-level handshake failure during
`connect()` surfaces the transport library's own ConnectionError to the
caller, which is not an instance of OnlyCatApiClientCommunicationError —
the module never raises its own error classes. -/
theorem connect_failure_not_communication_class :
    (connect ⟨false, false, 0⟩
        (.transportFailure "websocket handshake failed")).1 =
      .error (.transport (.connectionError "websocket handshake failed")) ∧
    PyError.isCommunicationErrorClass
      (.transport (.connectionError "websocket handshake failed")) = false :=
  ⟨rfl, rfl⟩

/-- Claim C1 (amended): every connection-establishment failure — whether a
transport-level handshake failure or a gateway rejection of the token —
propagates to the caller of `connect()` as the transport library's single
ConnectionError class, never as OnlyCatApiClientCommunicationError or
OnlyCatApiClientAuthenticationError, so the two failure kinds are not
distinguished by the module's own exception classes. -/
theorem connect_failure_propagates_transport_error (s : Socket)
    (o : HandshakeResult) (hc : s.connected = false) (ho : o ≠ .success) :
    ∃ m, (connect s o).1 = .error (.transport (.connectionError m)) ∧
      PyError.isCommunicationErrorClass
        (.transport (.connectionError m)) = false ∧
      PyError.isAuthenticationErrorClass
        (.transport (.connectionError m)) = false := by
  cases o with
  | success => exact absurd rfl ho
  | transportFailure m =>
      exact ⟨m, by simp [connect, hc, Socket.connectOp], rfl, rfl⟩
  | authRejected m =>
      exact ⟨m, by simp [connect, hc, Socket.connectOp], rfl, rfl⟩

/-- Claim C1 (amended) witness: a gateway token rejection on a fresh
disconnected client surfaces as the transport ConnectionError, not as
either of the module's error classes. -/
theorem connect_failure_propagates_transport_error_witness :
    ∃ m, (connect ⟨false, false, 0⟩ (.authRejected "invalid token")).1 =
        .error (.transport (.connectionError m)) ∧
      PyError.isCommunicationErrorClass
        (.transport (.connectionError m)) = false ∧
      PyError.isAuthenticationErrorClass
        (.transport (.connectionError m)) = false :=
  connect_failure_propagates_transport_error ⟨false, false, 0⟩
    (.authRejected "invalid token") rfl (by decide)

/-- Claim C4: starting disconnected, a successful `connect()` performs one
handshake attempt, and a second `connect()` without an intervening
disconnect sees the transport report connected and returns immediately —
state untouched, no further handshake attempt, so exactly one attempt in
total. -/
theorem connect_idempotent_single_handshake (s : Socket)
    (o2 : HandshakeResult) (hc : s.connected = false) :
    (connect s .success).1 = .ok () ∧
    (connect s .success).2.attempts = s.attempts + 1 ∧
    connect (connect s .success).2 o2 = (.ok (), (connect s .success).2) := by
  refine ⟨?_, ?_, ?_⟩ <;> simp [connect, hc, Socket.connectOp]

/-- Claim C4 witness: from a fresh disconnected client, two consecutive
`connect()` calls leave the attempt counter at exactly one. -/
theorem connect_idempotent_single_handshake_witness :
    (connect ⟨false, false, 0⟩ .success).1 = .ok () ∧
    (connect ⟨false, false, 0⟩ .success).2.attempts = 0 + 1 ∧
    connect (connect ⟨false, false, 0⟩ .success).2 .success =
      (.ok (), (connect ⟨false, false, 0⟩ .success).2) :=
  connect_idempotent_single_handshake ⟨false, false, 0⟩ .success rfl

/-- Claim C5: `disconnect()` on an already-disconnected client raises
nothing and still attempts both teardown steps — the graceful session
close followed by the transport shutdown. -/
theorem disconnect_on_disconnected_ok (s : Socket)
    (hc : s.connected = false) :
    disconnect s = (.ok (), { s with connected := false, shutdownDone := true },
      [.socketDisconnect, .socketShutdown]) := by
  simp [disconnect, Socket.disconnectOp, Socket.shutdownOp]

/-- Claim C5 witness: disconnecting a fresh never-connected client returns
normally with both teardown steps attempted. -/
theorem disconnect_on_disconnected_ok_witness :
    disconnect ⟨false, false, 0⟩ =
      (.ok (), { connected := false, shutdownDone := true, attempts := 0 },
        [.socketDisconnect, .socketShutdown]) :=
  disconnect_on_disconnected_ok ⟨false, false, 0⟩ rfl

/-- Claim C6: `send_message` while disconnected surfaces the transport's
error — a communication-kind failure under the spec's taxonomy — and never
produces a reply value. -/
theorem send_message_disconnected_error (s : Socket) (event : String)
    (data : Value) (reply : Option Value) (hc : s.connected = false) :
    send_message s event data reply =
      .error (.transport (.badNamespace "/ is not a connected namespace")) ∧
    PyError.communicationKind
      (.transport (.badNamespace "/ is not a connected namespace")) = true ∧
    ∀ v, send_message s event data reply ≠ .ok v := by
  refine ⟨?_, rfl, ?_⟩
  · simp [send_message, Socket.callOp, hc]
  · intro v hv
    rw [show send_message s event data reply =
      .error (.transport (.badNamespace "/ is not a connected namespace"))
      from by simp [send_message, Socket.callOp, hc]] at hv
    exact Except.noConfusion hv

/-- Claim C6 witness: sending "getStatus" on a disconnected client yields
the transport error and no reply. -/
theorem send_message_disconnected_error_witness :
    send_message ⟨false, false, 0⟩ "getStatus" (.obj [("id", .num 1)])
        (some (.obj [("status", .str "ok")])) =
      .error (.transport (.badNamespace "/ is not a connected namespace")) ∧
    PyError.communicationKind
      (.transport (.badNamespace "/ is not a connected namespace")) = true ∧
    ∀ v, send_message ⟨false, false, 0⟩ "getStatus" (.obj [("id", .num 1)])
        (some (.obj [("status", .str "ok")])) ≠ .ok v :=
  send_message_disconnected_error ⟨false, false, 0⟩ "getStatus"
    (.obj [("id", .num 1)]) (some (.obj [("status", .str "ok")])) rfl

/-- Claim C7: on a connected session, `send_message` returns exactly the
correlated reply the transport's call primitive produces — including the
absent value when the remote sends no payload. -/
theorem send_message_returns_correlated_reply (s : Socket) (event : String)
    (data : Value) (reply : Option Value) (hc : s.connected = true) :
    send_message s event data reply = .ok reply := by
  simp [send_message, Socket.callOp, hc]

/-- Claim C7 witness: the spec scenario — sending getStatus with id 1
against a transport that replies with status ok returns exactly that
reply; with no remote payload the absent value is returned. -/
theorem send_message_returns_correlated_reply_witness :
    send_message ⟨true, false, 1⟩ "getStatus" (.obj [("id", .num 1)])
        (some (.obj [("status", .str "ok")])) =
      .ok (some (.obj [("status", .str "ok")])) :=
  send_message_returns_correlated_reply ⟨true, false, 1⟩ "getStatus"
    (.obj [("id", .num 1)]) (some (.obj [("status", .str "ok")])) rfl

end OnlyCat
